import Mathlib

/-!
Verification of the order-lifecycle core of the TG_BOT_t-short repository
(a Telegram storefront bot).  The Python source is shallowly embedded:
the relational store (SQLAlchemy tables in `models.py`) becomes a record
of lists, the repository functions of `repositories.py` become pure
state-transformers, and the aiogram handlers of `bot.py` that the claims
mention become functions on an explicit FSM-session state.
-/

namespace TgShop

/-- Source: `models.Product` (`models.py` lines 38-54): only the columns the claims
use.  `price` is an integer amount of minor currency units; `sizes` is the
JSON list of available size strings. -/
structure Product where
  id : Nat
  name : String
  price : Int
  sizes : List String
  deriving Repr, DecidableEq

/-- Source: `models.CartItem` (`models.py` lines 56-67). -/
structure CartItem where
  user_id : Nat
  product_id : Nat
  size : String
  quantity : Int
  deriving Repr, DecidableEq

/-- Source: `models.User` (`models.py` lines 13-25): only the two ids the handlers
use (`id` is the primary key, `telegram_id` the messenger id). -/
structure User where
  id : Nat
  telegram_id : Nat
  deriving Repr, DecidableEq

/-- Source: `models.Order` (`models.py` lines 77-93).  `delivery_address` is a JSON
dict; we keep it as a list of key/value pairs, values optional because the
checkout handler can store `None` for an absent draft field. -/
structure Order where
  id : Nat
  user_id : Nat
  order_number : String
  status : String
  total_amount : Int
  fullname : String
  phone : String
  delivery_type : String
  delivery_address : List (String × Option String)
  deriving Repr, DecidableEq

/-- Source: `models.OrderItem` (`models.py` lines 95-108): the frozen order line. -/
structure OrderItem where
  order_id : Nat
  product_id : Nat
  product_name : String
  size : String
  price : Int
  quantity : Int
  total : Int
  deriving Repr, DecidableEq

/-- The relational store: one list per table, rows in insertion order
(`first()` picks the head of the matching rows, as SQLite returns them). -/
structure DB where
  users : List User
  products : List Product
  cart_items : List CartItem
  orders : List Order
  order_items : List OrderItem
  deriving Repr, DecidableEq

/-- The row filter of the cart queries: `CartItem.user_id == user_id,
CartItem.product_id == product_id, CartItem.size == size`. -/
def cartKey (uid pid : Nat) (size : String) (it : CartItem) : Bool :=
  it.user_id == uid && it.product_id == pid && it.size == size

/-- Update the first element satisfying `p` (a `query(...).first()` row
followed by an attribute assignment and `commit`). -/
def updateFirst (p : α → Bool) (f : α → α) : List α → List α
  | [] => []
  | x :: xs => if p x then f x :: xs else x :: updateFirst p f xs

/-- Source: `CartRepository.add_to_cart` (`repositories.py` lines 70-90): if a row
for (user, product, size) exists its quantity is incremented, otherwise a
new row is appended.  No size or quantity validation is performed. -/
def add_to_cart (db : DB) (uid pid : Nat) (size : String) (qty : Int) : DB :=
  match db.cart_items.find? (cartKey uid pid size) with
  | some _ =>
      { db with cart_items :=
          (updateFirst (cartKey uid pid size)
            (fun it => { it with quantity := it.quantity + qty }) db.cart_items) }
  | none =>
      { db with cart_items :=
          (db.cart_items ++ [{ user_id := uid, product_id := pid, size := size, quantity := qty }]) }

/-- Source: `CartRepository.get_user_cart` (`repositories.py` lines 92-97). -/
def get_user_cart (db : DB) (uid : Nat) : List CartItem :=
  db.cart_items.filter (fun it => it.user_id == uid)

/-- Source: `CartRepository.clear_cart` (`repositories.py` lines 99-103). -/
def clear_cart (db : DB) (uid : Nat) : DB :=
  { db with cart_items := db.cart_items.filter (fun it => !(it.user_id == uid)) }

/-- Source: `CartRepository.update_cart_item` (`repositories.py` lines 120-134):
no row means no-op; `quantity <= 0` deletes the found row; otherwise the
found row's quantity is replaced by `quantity`. -/
def update_cart_item (db : DB) (uid pid : Nat) (size : String) (qty : Int) : DB :=
  match db.cart_items.find? (cartKey uid pid size) with
  | none => db
  | some _ =>
      if qty ≤ 0 then
        { db with cart_items := db.cart_items.eraseP (cartKey uid pid size) }
      else
        { db with cart_items :=
            (updateFirst (cartKey uid pid size) (fun it => { it with quantity := qty }) db.cart_items) }

/-- Source: `ProductRepository.get_by_id` (`repositories.py` lines 48-50), also the
`.product` ORM relation of a cart row (`joinedload` in `get_user_cart`). -/
def getProduct (db : DB) (pid : Nat) : Option Product :=
  db.products.find? (fun p => p.id == pid)

/-- Source: `OrderRepository.get_order_by_id` (`repositories.py` lines 197-200). -/
def find_order (db : DB) (oid : Nat) : Option Order :=
  db.orders.find? (fun o => o.id == oid)

/-- Source: `OrderRepository.update_order_status` (`repositories.py` lines 202-210):
mutate the first row with the given id, return whether a row was found. -/
def update_order_status (db : DB) (oid : Nat) (status : String) : DB × Bool :=
  match find_order db oid with
  | some _ =>
      ({ db with orders :=
          (updateFirst (fun o => o.id == oid) (fun o => { o with status := status }) db.orders) },
       true)
  | none => (db, false)

/-- Source: `OrderRepository.cancel_order` (`repositories.py` lines 212-215). -/
def cancel_order (db : DB) (oid : Nat) : DB × Bool :=
  update_order_status db oid "cancelled"

/-- Outcome reported by the `order_cancel` callback handler (which answer the
user receives).  The `get_db_safe` failure branch is not modelled: the store
is a value here, so obtaining it cannot fail. -/
inductive CancelOutcome
  | notFound
  | invalidStatus
  | cancelled
  deriving Repr, DecidableEq

/-- Source: `on_order_cancel` (`bot.py` lines 1010-1037): the user-side cancellation.
Looks the order up; refuses when `order.status not in ["pending", "confirmed"]`
(membership in the two-element literal list is written out as the two
equality tests); otherwise delegates to `OrderRepository.cancel_order`. -/
def on_order_cancel (db : DB) (oid : Nat) : DB × CancelOutcome :=
  match find_order db oid with
  | none => (db, .notFound)
  | some o =>
      if !(o.status == "pending" || o.status == "confirmed") then (db, .invalidStatus)
      else ((cancel_order db oid).1, .cancelled)

/-- A cart row together with its loaded `.product` relation, as
`get_user_cart`'s `joinedload(CartItem.product)` hands rows to
`create_order`. -/
structure CartItemView where
  item : CartItem
  product : Product
  deriving Repr, DecidableEq

/-- The `OrderItem(...)` constructed for one cart row inside
`OrderRepository.create_order` (`repositories.py` lines 167-175). -/
def mkOrderItem (oid : Nat) (v : CartItemView) : OrderItem :=
  { order_id := oid
    product_id := v.item.product_id
    product_name := v.product.name
    size := v.item.size
    price := v.product.price
    quantity := v.item.quantity
    total := v.product.price * v.item.quantity }

/-- The autoincrement primary key handed out by `db.flush()`; orders are
never deleted, so it is modelled as the successor of the current row count. -/
def next_order_id (db : DB) : Nat := db.orders.length + 1

/-- Source: `OrderRepository.create_order` (`repositories.py` lines 143-186).
`order_number` (time + random suffix from `generate_order_number`) is a
parameter, since the model has no clock.  `status` is not passed in the
source either: it is the column default `OrderStatus.PENDING.value`
(`models.py` line 83).  `total_amount` starts at 0 and accumulates
`product.price * quantity` over the rows, exactly as the source loop does;
finally the user's cart is cleared via `clear_user_cart` (alias of
`clear_cart`). -/
def create_order (db : DB) (uid : Nat) (cart_items : List CartItemView)
    (fullname phone delivery_type : String)
    (delivery_address : List (String × Option String)) (order_number : String) :
    DB × Order :=
  let oid := next_order_id db
  let items := cart_items.map (mkOrderItem oid)
  let total := cart_items.foldl (fun acc v => acc + v.product.price * v.item.quantity) 0
  let order : Order :=
    { id := oid
      user_id := uid
      order_number := order_number
      status := "pending"
      total_amount := total
      fullname := fullname
      phone := phone
      delivery_type := delivery_type
      delivery_address := delivery_address }
  let db1 := { db with
    orders := db.orders ++ [order],
    order_items := db.order_items ++ items }
  (clear_cart db1 uid, order)

/-- Source: `adm_prod_apply_edit` for the field `"price"`
(`admin_panel_v_2.py` lines 467-495): look the product up by id, overwrite
its `price` column and commit; no other table is touched. -/
def admin_set_product_price (db : DB) (pid : Nat) (newPrice : Int) : DB :=
  match db.products.find? (fun p => p.id == pid) with
  | none => db
  | some _ =>
      { db with products :=
          (updateFirst (fun p => p.id == pid) (fun p => { p with price := newPrice }) db.products) }

/-- Python's `str.strip()` / the `\s` class, restricted to the ASCII
whitespace characters (the inputs the bot handles are chat text; wider
Unicode whitespace is not modelled). -/
def isPySpace (c : Char) : Bool :=
  c == ' ' || c == '\t' || c == '\n' || c == '\r' || c == '\x0b' || c == '\x0c'

/-- Python `str.strip()`: drop leading and trailing whitespace. -/
def pyStrip (s : String) : String :=
  String.mk (((s.data.dropWhile isPySpace).reverse.dropWhile isPySpace).reverse)

/-- One character of the full-name regex `^[a-zA-Zа-яА-ЯёЁ\s\-]+$`
(`bot.py` line 121): Latin letters, Russian Cyrillic letters (а-я, А-Я,
ё, Ё), whitespace, or a hyphen. -/
def fullnameChar (c : Char) : Bool :=
  let n := c.toNat
  (0x61 ≤ n && n ≤ 0x7a) || (0x41 ≤ n && n ≤ 0x5a) ||
  (0x430 ≤ n && n ≤ 0x44f) || (0x410 ≤ n && n ≤ 0x42f) ||
  n == 0x451 || n == 0x401 || isPySpace c || c == '-'

/-- Source: `OrderValidation.validate_fullname` (`bot.py` lines 116-123): strip,
require length between 2 and 100, require every character to match the
letters/space/hyphen class; returns `(ok, stripped-or-error-message)`. -/
def validate_fullname (fullname : String) : Bool × String :=
  let t := pyStrip fullname
  if t.length < 2 || 100 < t.length then
    (false, "ФИО должно быть от 2 до 100 символов")
  else if !(t.data.all fullnameChar) then
    (false, "ФИО может содержать только буквы, пробелы и дефисы")
  else (true, t)

/-- Source: `OrderValidation.validate_phone` (`bot.py` lines 125-131):
`re.sub(r'\D', '', phone)` keeps the digits only (`0`-`9`; exotic Unicode
digit classes are not modelled), then the count must be 10 or 11; returns
`(ok, cleaned-or-error-message)`. -/
def validate_phone (phone : String) : Bool × String :=
  let cleaned := String.mk (phone.data.filter Char.isDigit)
  if cleaned.length == 10 || cleaned.length == 11 then (true, cleaned)
  else (false, "Неверный формат телефона. Пример: +7 999 123-45-67")

/-- The aiogram `OrderFSM` states (`bot.py`), plus `idle` for "no state set"
(the cleared context). -/
inductive FSMState
  | idle
  | waiting_fullname
  | waiting_phone
  | waiting_delivery_type
  | waiting_cdek_city
  | waiting_cdek_pvz
  | waiting_address
  | confirm
  deriving Repr, DecidableEq

/-- The per-user FSM context data accumulated by `state.update_data`:
the order draft. -/
structure Draft where
  fullname : Option String := none
  phone : Option String := none
  delivery_type : Option String := none
  cdek_city : Option String := none
  cdek_pvz : Option String := none
  address : Option String := none
  deriving Repr, DecidableEq

/-- The checkout session: FSM state plus draft data, keyed per user. -/
structure Session where
  fsm : FSMState
  draft : Draft
  deriving Repr, DecidableEq

/-- Source: `state.clear()`: no state, no data. -/
def Session.cleared : Session := { fsm := .idle, draft := {} }

/-- Whether `needle` occurs contiguously in `hay`: Python's `in` on
strings, on the underlying character lists. -/
def hasSub (needle : List Char) : List Char → Bool
  | [] => needle.isEmpty
  | c :: rest => needle.isPrefixOf (c :: rest) || hasSub needle rest

/-- Source: `format_cart` (`bot.py` lines 403-427): the message text for a user's
cart.  Rows whose `.product` relation is missing are skipped in the listing,
exactly as the `hasattr(item, 'product') and item.product` guard does.
(The `get_db_safe` failure string is not modelled: the store is a value.) -/
def format_cart (db : DB) (tg : Nat) : String :=
  match db.users.find? (fun u => u.telegram_id == tg) with
  | none => "Пользователь не найден."
  | some u =>
    let cart := get_user_cart db u.id
    if cart.isEmpty then "🛒 *Ваша корзина пуста*"
    else
      let step := fun (acc : List String × Int) (it : CartItem) =>
        match getProduct db it.product_id with
        | some p =>
            let lt := p.price * it.quantity
            (acc.1 ++ ["• " ++ p.name ++ " — " ++ it.size ++ " × " ++
                       toString it.quantity ++ " = *" ++ toString lt ++ " ₽*"],
             acc.2 + lt)
        | none => acc
      let r := cart.foldl step (["🛒 *Ваша корзина:*"], 0)
      String.intercalate "\n" (r.1 ++ ["\n💰 *Итого: " ++ toString r.2 ++ " ₽*"])

/-- Source: `on_checkout` (`bot.py` lines 1110-1120): the `/checkout` entry point.
The guard is literal: if the substring `"пуста"` occurs in the formatted
cart text the handler returns without touching the session; otherwise it
moves the FSM to `waiting_fullname`.  No table is read or written beyond
`format_cart`'s reads, so carts and orders are untouched either way. -/
def on_checkout (db : DB) (tg : Nat) (s : Session) : Session :=
  if hasSub "пуста".data (format_cart db tg).data then s
  else { s with fsm := .waiting_fullname }

/-- Source: `on_fullname` (`bot.py` lines 1122-1133): on invalid input, re-prompt
and leave the session alone; on valid input store the stripped name and
advance to `waiting_phone`. -/
def on_fullname (s : Session) (text : String) : Session :=
  match validate_fullname text with
  | (true, result) =>
      { fsm := .waiting_phone, draft := { s.draft with fullname := some result } }
  | (false, _) => s

/-- Source: `on_phone` (`bot.py` lines 1135-1147): on invalid input, re-prompt and
leave the session alone; on valid input store the cleaned digits and
advance to `waiting_delivery_type`. -/
def on_phone (s : Session) (text : String) : Session :=
  match validate_phone text with
  | (true, result) =>
      { fsm := .waiting_delivery_type, draft := { s.draft with phone := some result } }
  | (false, _) => s

/-- The rows `get_user_cart` hands to `create_order`, each with its loaded
`.product` relation; `none` when some row's product is missing (then
`cart_item.product.price` inside `create_order` raises, landing in the
handler's `except` branch). -/
def load_cart_views (db : DB) (uid : Nat) : Option (List CartItemView) :=
  (get_user_cart db uid).mapM
    (fun it => (getProduct db it.product_id).map
      (fun p => ({ item := it, product := p } : CartItemView)))

/-- Which message the confirm handler ends with. -/
inductive ConfirmOutcome
  | emptyCart
  | created
  | createFailed
  deriving Repr, DecidableEq

/-- Source: `confirm_order` (`bot.py` lines 1206-1262), for the user row `u` that
`get_or_create_user` returned.  `commitFails` injects a persistence failure
of the `try` block (e.g. a failing `db.commit()`); the session context then
closes without committing, so the store is returned unchanged.  `data.get`
yields the draft fields accumulated by the FSM (by the time
`OrderFSM.confirm` is reachable they are set; the model reads them with a
default).  Every branch of the handler ends in the unconditional
`state.clear()` of line 1261 (or line 1214/1229), wiping both the FSM state
and the draft. -/
def confirm_order (db : DB) (u : User) (s : Session) (commitFails : Bool)
    (order_number : String) : DB × Session × ConfirmOutcome :=
  let cart := get_user_cart db u.id
  if cart.isEmpty then (db, Session.cleared, .emptyCart)
  else
    let delivery_data : List (String × Option String) :=
      if s.draft.delivery_type == some "cdek" then
        [("city", s.draft.cdek_city), ("pvz", s.draft.cdek_pvz)]
      else
        [("address", s.draft.address)]
    match load_cart_views db u.id with
    | none => (db, Session.cleared, .createFailed)
    | some views =>
        if commitFails then (db, Session.cleared, .createFailed)
        else
          let r := create_order db u.id views (s.draft.fullname.getD "")
                     (s.draft.phone.getD "") (s.draft.delivery_type.getD "")
                     delivery_data order_number
          (r.1, Session.cleared, .created)

/-! ## Generic list lemmas about the row-mutation helpers -/

theorem find?_append_of_none {α} {p : α → Bool} {l : List α} (l' : List α)
    (h : l.find? p = none) : (l ++ l').find? p = l'.find? p := by
  induction l with
  | nil => simp
  | cons x xs ih =>
      by_cases hp : p x
      · rw [List.find?_cons_of_pos _ hp] at h; exact absurd h (by simp)
      · rw [List.find?_cons_of_neg _ hp] at h
        simpa [List.cons_append, List.find?_cons_of_neg _ hp] using ih h

theorem updateFirst_append_of_none {α} {p : α → Bool} (f : α → α) {l : List α} (l' : List α)
    (h : l.find? p = none) : updateFirst p f (l ++ l') = l ++ updateFirst p f l' := by
  induction l with
  | nil => simp
  | cons x xs ih =>
      by_cases hp : p x
      · rw [List.find?_cons_of_pos _ hp] at h; exact absurd h (by simp)
      · rw [List.find?_cons_of_neg _ hp] at h
        simp [updateFirst, hp, ih h]

theorem find?_updateFirst_self {α} {p : α → Bool} {f : α → α} {l : List α} {a : α}
    (h : l.find? p = some a) (hf : p (f a) = true) :
    (updateFirst p f l).find? p = some (f a) := by
  induction l with
  | nil => simp at h
  | cons x xs ih =>
      by_cases hp : p x
      · rw [List.find?_cons_of_pos _ hp] at h
        cases h
        simp [updateFirst, hp, List.find?_cons_of_pos _ hf]
      · rw [List.find?_cons_of_neg _ hp] at h
        simp [updateFirst, hp, List.find?_cons_of_neg _ hp, ih h]

theorem filter_not_updateFirst {α} {p : α → Bool} {f : α → α}
    (hf : ∀ a, p a = true → p (f a) = true) (l : List α) :
    (updateFirst p f l).filter (fun x => !(p x)) = l.filter (fun x => !(p x)) := by
  induction l with
  | nil => rfl
  | cons x xs ih =>
      by_cases hp : p x
      · simp [updateFirst, hp, hf x hp]
      · simp [updateFirst, hp, ih]

theorem filter_not_eraseP {α} {p : α → Bool} (l : List α) :
    (l.eraseP p).filter (fun x => !(p x)) = l.filter (fun x => !(p x)) := by
  induction l with
  | nil => rfl
  | cons x xs ih =>
      by_cases hp : p x
      · simp [List.eraseP_cons_of_pos hp, hp]
      · simp [List.eraseP_cons_of_neg hp, hp, ih]

theorem find?_eraseP_of_countP_le_one {α} {p : α → Bool} {l : List α}
    (h : l.countP p ≤ 1) : (l.eraseP p).find? p = none := by
  induction l with
  | nil => simp
  | cons x xs ih =>
      by_cases hp : p x
      · rw [List.eraseP_cons_of_pos hp]
        rw [List.countP_cons_of_pos _ _ hp] at h
        have hzero : xs.countP p = 0 := by omega
        exact List.find?_eq_none.mpr fun a ha =>
          (List.countP_eq_zero.mp hzero) a ha
      · rw [List.eraseP_cons_of_neg hp]
        rw [List.countP_cons_of_neg _ _ hp] at h
        rw [List.find?_cons_of_neg _ hp]
        exact ih h

theorem foldl_add_map {α} (g : α → Int) (l : List α) (a : Int) :
    l.foldl (fun acc v => acc + g v) a = a + (l.map g).sum := by
  induction l generalizing a with
  | nil => simp
  | cons x xs ih => simp [List.foldl_cons, ih, List.sum_cons]; ring

/-- Source: `add_to_cart` in the no-existing-row case, as an equation. -/
theorem add_to_cart_eq_of_none {db : DB} {uid pid : Nat} {size : String} (qty : Int)
    (h : db.cart_items.find? (cartKey uid pid size) = none) :
    (add_to_cart db uid pid size qty).cart_items =
      db.cart_items ++ [{ user_id := uid, product_id := pid, size := size, quantity := qty }] := by
  simp [add_to_cart, h]

/-- Source: `add_to_cart` in the existing-row case, as an equation. -/
theorem add_to_cart_eq_of_some {db : DB} {uid pid : Nat} {size : String} {it : CartItem} (qty : Int)
    (h : db.cart_items.find? (cartKey uid pid size) = some it) :
    (add_to_cart db uid pid size qty).cart_items =
      updateFirst (cartKey uid pid size)
        (fun x => { x with quantity := x.quantity + qty }) db.cart_items := by
  simp [add_to_cart, h]

/-! ## Claim theorems -/

/-- A one-user, one-product demonstration store used to evaluate the
claim theorems on concrete inputs. -/
def demoDB : DB := {
  users := [{ id := 1, telegram_id := 100 }],
  products := [{ id := 1, name := "Tee", price := 1000, sizes := ["M"] }],
  cart_items := [], orders := [], order_items := [] }

/-- C3. For every user, product, size and positive quantities `q1`, `q2`
(and no pre-existing row for that key), `add_to_cart` followed by
`add_to_cart` with the same (user, product, size) leaves exactly one cart
row for the key, its quantity is `q1 + q2`, and every other row is
untouched: quantities merge, no duplicate row is created. -/
theorem add_to_cart_merges (db : DB) (uid pid : Nat) (size : String) (q1 q2 : Int)
    (hq1 : 0 < q1) (hq2 : 0 < q2)
    (h : db.cart_items.find? (cartKey uid pid size) = none) :
    (add_to_cart (add_to_cart db uid pid size q1) uid pid size q2).cart_items.filter
        (cartKey uid pid size) =
      [{ user_id := uid, product_id := pid, size := size, quantity := q1 + q2 }] ∧
    (add_to_cart (add_to_cart db uid pid size q1) uid pid size q2).cart_items.filter
        (fun it => !(cartKey uid pid size it)) =
      db.cart_items.filter (fun it => !(cartKey uid pid size it)) := by
  have hnew : cartKey uid pid size
      { user_id := uid, product_id := pid, size := size, quantity := q1 } = true := by
    simp [cartKey]
  have h1 := add_to_cart_eq_of_none q1 h
  have hfind2 : (add_to_cart db uid pid size q1).cart_items.find? (cartKey uid pid size) =
      some { user_id := uid, product_id := pid, size := size, quantity := q1 } := by
    rw [h1, find?_append_of_none _ h]
    simp [List.find?, hnew]
  have h2 := add_to_cart_eq_of_some q2 hfind2
  rw [h1] at h2
  rw [updateFirst_append_of_none _ _ h] at h2
  have h3 : (add_to_cart (add_to_cart db uid pid size q1) uid pid size q2).cart_items =
      db.cart_items ++ [{ user_id := uid, product_id := pid, size := size, quantity := q1 + q2 }] := by
    rw [h2]; simp [updateFirst, hnew]
  have hnil : db.cart_items.filter (cartKey uid pid size) = [] :=
    List.filter_eq_nil_iff.mpr (List.find?_eq_none.mp h)
  constructor
  · rw [h3, List.filter_append, hnil]
    simp [List.filter, cartKey]
  · rw [h3, List.filter_append]
    simp [List.filter, cartKey]

/-- Witness for C3: starting from the empty cart of `demoDB`, adding 2 then
3 of product 1 in size "M" yields the single merged row of quantity 5. -/
theorem add_to_cart_merges_witness :
    (add_to_cart (add_to_cart demoDB 1 1 "M" 2) 1 1 "M" 3).cart_items.filter (cartKey 1 1 "M") =
      [{ user_id := 1, product_id := 1, size := "M", quantity := 5 }] ∧
    (add_to_cart (add_to_cart demoDB 1 1 "M" 2) 1 1 "M" 3).cart_items.filter
        (fun it => !(cartKey 1 1 "M" it)) =
      demoDB.cart_items.filter (fun it => !(cartKey 1 1 "M" it)) := by
  have h := add_to_cart_merges demoDB 1 1 "M" 2 3 (by decide) (by decide) (by decide)
  norm_num at h
  exact h

/-- Source: `demoDB` with one cart row: 2 × product 1 in size "M" for user 1. -/
def cartDemoDB : DB :=
  { demoDB with cart_items := [{ user_id := 1, product_id := 1, size := "M", quantity := 2 }] }

/-- C10. `update_cart_item` is a no-op when no row matches
(user, product, size); when a row matches and `quantity ≤ 0` that row is
deleted (no row for the key remains, all other rows untouched); when a row
matches and `quantity > 0` the row's quantity is replaced by the given
value — set semantics, not merge.  The delete/replace facts are stated
under the store invariant that the key matches at most one row, which the
cart operations maintain. -/
theorem update_cart_item_spec (db : DB) (uid pid : Nat) (size : String) (qty : Int) :
    (db.cart_items.find? (cartKey uid pid size) = none →
      update_cart_item db uid pid size qty = db) ∧
    (∀ it, db.cart_items.find? (cartKey uid pid size) = some it →
      db.cart_items.countP (cartKey uid pid size) ≤ 1 →
      ((qty ≤ 0 →
          (update_cart_item db uid pid size qty).cart_items.find? (cartKey uid pid size) = none ∧
          (update_cart_item db uid pid size qty).cart_items.filter
              (fun x => !(cartKey uid pid size x)) =
            db.cart_items.filter (fun x => !(cartKey uid pid size x))) ∧
       (0 < qty →
          (update_cart_item db uid pid size qty).cart_items.find? (cartKey uid pid size) =
            some { it with quantity := qty } ∧
          (update_cart_item db uid pid size qty).cart_items.filter
              (fun x => !(cartKey uid pid size x)) =
            db.cart_items.filter (fun x => !(cartKey uid pid size x))))) := by
  refine ⟨fun h => ?_, fun it hit hcount => ⟨fun hq => ?_, fun hq => ?_⟩⟩
  · simp [update_cart_item, h]
  · have he : (update_cart_item db uid pid size qty).cart_items =
        db.cart_items.eraseP (cartKey uid pid size) := by
      simp [update_cart_item, hit, hq]
    rw [he]
    exact ⟨find?_eraseP_of_countP_le_one hcount, filter_not_eraseP _⟩
  · have hq' : ¬ qty ≤ 0 := not_le.mpr hq
    have he : (update_cart_item db uid pid size qty).cart_items =
        updateFirst (cartKey uid pid size) (fun x => { x with quantity := qty }) db.cart_items := by
      simp [update_cart_item, hit, hq']
    rw [he]
    have hpres : ∀ a : CartItem, cartKey uid pid size a = true →
        cartKey uid pid size { a with quantity := qty } = true := by
      intro a ha; simpa [cartKey] using ha
    have hkey : cartKey uid pid size { it with quantity := qty } = true :=
      hpres it (List.find?_some hit)
    exact ⟨find?_updateFirst_self hit hkey, filter_not_updateFirst hpres _⟩

/-- Witness for C10 at a concrete store: the single "M" row of quantity 2
is replaced by quantity 7 (not 2 + 7), with every other row untouched. -/
theorem update_cart_item_spec_witness :
    (update_cart_item cartDemoDB 1 1 "M" 7).cart_items.find? (cartKey 1 1 "M") =
      some { user_id := 1, product_id := 1, size := "M", quantity := 7 } ∧
    (update_cart_item cartDemoDB 1 1 "M" 7).cart_items.filter (fun x => !(cartKey 1 1 "M" x)) =
      cartDemoDB.cart_items.filter (fun x => !(cartKey 1 1 "M" x)) :=
  ((update_cart_item_spec cartDemoDB 1 1 "M" 7).2
      { user_id := 1, product_id := 1, size := "M", quantity := 2 }
      (by decide) (by decide)).2 (by decide)

/-- A demonstration order in the given status. -/
def demoOrder (st : String) : Order := {
  id := 1
  user_id := 1
  order_number := "ORD1"
  status := st
  total_amount := 2000
  fullname := "Ivan Petrov"
  phone := "79991234567"
  delivery_type := "courier"
  delivery_address := [("address", some "Moscow street 1")] }

/-- Source: `demoDB` with one order in the given status. -/
def orderDemoDB (st : String) : DB := { demoDB with orders := [demoOrder st] }

/-- C2. For an existing order, the user cancellation handler succeeds
and sets the status to "cancelled" if and only if the current status is
"pending" or "confirmed"; for every other status it reports an invalid
transition and leaves the store (hence the order's status) unchanged. -/
theorem on_order_cancel_spec (db : DB) (oid : Nat) (o : Order)
    (h : find_order db oid = some o) :
    ((on_order_cancel db oid).2 = CancelOutcome.cancelled ↔
      (o.status = "pending" ∨ o.status = "confirmed")) ∧
    ((o.status = "pending" ∨ o.status = "confirmed") →
      find_order (on_order_cancel db oid).1 oid = some { o with status := "cancelled" }) ∧
    (¬(o.status = "pending" ∨ o.status = "confirmed") →
      on_order_cancel db oid = (db, CancelOutcome.invalidStatus)) := by
  have h' : db.orders.find? (fun o' => o'.id == oid) = some o := h
  have hp := List.find?_some h'
  have hcanc : (cancel_order db oid).1 =
      { db with orders := (updateFirst (fun o' => o'.id == oid)
          (fun o' => { o' with status := "cancelled" }) db.orders) } := by
    simp [cancel_order, update_order_status, h]
  by_cases hst : o.status = "pending" ∨ o.status = "confirmed"
  · have hres : on_order_cancel db oid = ((cancel_order db oid).1, CancelOutcome.cancelled) := by
      rcases hst with hs | hs <;> simp [on_order_cancel, h, hs]
    have heq : (on_order_cancel db oid).2 = CancelOutcome.cancelled := by rw [hres]
    refine ⟨iff_of_true heq hst, fun _ => ?_, fun hcon => absurd hst hcon⟩
    have hfst : (on_order_cancel db oid).1 = (cancel_order db oid).1 := by rw [hres]
    rw [hfst, hcanc]
    exact find?_updateFirst_self h' hp
  · push_neg at hst
    obtain ⟨hn1, hn2⟩ := hst
    have hstn : ¬(o.status = "pending" ∨ o.status = "confirmed") := not_or.mpr ⟨hn1, hn2⟩
    have hres : on_order_cancel db oid = (db, CancelOutcome.invalidStatus) := by
      simp [on_order_cancel, h, hn1, hn2]
    have hne : ¬((on_order_cancel db oid).2 = CancelOutcome.cancelled) := by
      rw [hres]; simp
    exact ⟨iff_of_false hne hstn, fun hcon => absurd hcon hstn, fun _ => hres⟩

/-- Witness for C2 at a concrete store: a "shipped" order cannot be
cancelled by the user and the store is untouched, while a "pending" order
is cancelled. -/
theorem on_order_cancel_spec_witness :
    (¬((demoOrder "shipped").status = "pending" ∨ (demoOrder "shipped").status = "confirmed") →
      on_order_cancel (orderDemoDB "shipped") 1 =
        (orderDemoDB "shipped", CancelOutcome.invalidStatus)) ∧
    (((demoOrder "pending").status = "pending" ∨ (demoOrder "pending").status = "confirmed") →
      find_order (on_order_cancel (orderDemoDB "pending") 1).1 1 =
        some { demoOrder "pending" with status := "cancelled" }) :=
  ⟨(on_order_cancel_spec (orderDemoDB "shipped") 1 (demoOrder "shipped") (by decide)).2.2,
   (on_order_cancel_spec (orderDemoDB "pending") 1 (demoOrder "pending") (by decide)).2.1⟩

/-- After `clear_cart`, the user's cart reads back empty. -/
theorem get_user_cart_clear (db : DB) (uid : Nat) :
    get_user_cart (clear_cart db uid) uid = [] := by
  refine List.filter_eq_nil_iff.mpr ?_
  intro a ha
  have hp := (List.mem_filter.mp ha).2
  simp at hp ⊢
  exact hp

/-- C1. For every non-empty snapshot of cart rows (each with its loaded
product) and completed draft data, `create_order` appends exactly one new
order; its lines copy each cart row's product name and unit price from the
snapshot with `total = price × quantity`; its `total_amount` equals the sum
of all line totals; its initial status is "pending"; and afterwards the
user's cart is empty. -/
theorem create_order_spec (db : DB) (uid : Nat) (views : List CartItemView)
    (fullname phone dtype : String) (daddr : List (String × Option String))
    (onum : String) (hne : views ≠ []) :
    (create_order db uid views fullname phone dtype daddr onum).2.status = "pending" ∧
    (create_order db uid views fullname phone dtype daddr onum).1.orders =
      db.orders ++ [(create_order db uid views fullname phone dtype daddr onum).2] ∧
    (create_order db uid views fullname phone dtype daddr onum).1.order_items =
      db.order_items ++ views.map (mkOrderItem (next_order_id db)) ∧
    (∀ v ∈ views,
      (mkOrderItem (next_order_id db) v).product_name = v.product.name ∧
      (mkOrderItem (next_order_id db) v).price = v.product.price ∧
      (mkOrderItem (next_order_id db) v).total = v.product.price * v.item.quantity) ∧
    (create_order db uid views fullname phone dtype daddr onum).2.total_amount =
      ((views.map (mkOrderItem (next_order_id db))).map OrderItem.total).sum ∧
    get_user_cart (create_order db uid views fullname phone dtype daddr onum).1 uid = [] := by
  refine ⟨rfl, rfl, rfl, fun v _ => ⟨rfl, rfl, rfl⟩, ?_, ?_⟩
  · show views.foldl (fun acc v => acc + v.product.price * v.item.quantity) 0 =
        ((views.map (mkOrderItem (next_order_id db))).map OrderItem.total).sum
    rw [foldl_add_map, List.map_map, zero_add]
    congr 1
  · exact get_user_cart_clear _ uid

/-- The single cart row of `cartDemoDB` joined with its product. -/
def demoViews : List CartItemView :=
  [{ item := { user_id := 1, product_id := 1, size := "M", quantity := 2 },
     product := { id := 1, name := "Tee", price := 1000, sizes := ["M"] } }]

/-- Witness for C1 at a concrete store: the created order starts "pending"
and the user's cart is empty afterwards. -/
theorem create_order_spec_witness :
    (create_order cartDemoDB 1 demoViews "Ivan Petrov" "79991234567" "courier"
        [("address", some "Moscow street 1")] "ORD1").2.status = "pending" ∧
    get_user_cart (create_order cartDemoDB 1 demoViews "Ivan Petrov" "79991234567" "courier"
        [("address", some "Moscow street 1")] "ORD1").1 1 = [] :=
  ⟨(create_order_spec cartDemoDB 1 demoViews "Ivan Petrov" "79991234567" "courier"
      [("address", some "Moscow street 1")] "ORD1" (by decide)).1,
   (create_order_spec cartDemoDB 1 demoViews "Ivan Petrov" "79991234567" "courier"
      [("address", some "Moscow street 1")] "ORD1" (by decide)).2.2.2.2.2⟩

/-- C5. Order line prices are frozen: the admin price edit rewrites only
the products table, so for every existing order every `OrderItem`'s `price`
and `total` and every `Order`'s `total_amount` — all stored columns of the
`order_items` and `orders` tables copied at order time — are unchanged,
while the product's own price really is updated. -/
theorem admin_price_edit_frame (db : DB) (pid : Nat) (newPrice : Int) :
    (admin_set_product_price db pid newPrice).order_items = db.order_items ∧
    (admin_set_product_price db pid newPrice).orders = db.orders ∧
    (∀ p, getProduct db pid = some p →
      getProduct (admin_set_product_price db pid newPrice) pid =
        some { p with price := newPrice }) := by
  refine ⟨?_, ?_, fun p hp => ?_⟩
  · cases hf : db.products.find? (fun q => q.id == pid) <;>
      simp [admin_set_product_price, hf]
  · cases hf : db.products.find? (fun q => q.id == pid) <;>
      simp [admin_set_product_price, hf]
  · have hp' : db.products.find? (fun q => q.id == pid) = some p := hp
    have hkey := List.find?_some hp'
    show (admin_set_product_price db pid newPrice).products.find? (fun q => q.id == pid) =
      some { p with price := newPrice }
    have he : (admin_set_product_price db pid newPrice).products =
        updateFirst (fun q => q.id == pid) (fun q => { q with price := newPrice }) db.products := by
      simp [admin_set_product_price, hp']
    rw [he]
    exact find?_updateFirst_self hp' hkey

/-- Witness for C5 at a concrete store: repricing product 1 leaves the
order-line table alone and really changes the product's price. -/
theorem admin_price_edit_frame_witness :
    (admin_set_product_price demoDB 1 1500).order_items = demoDB.order_items ∧
    getProduct (admin_set_product_price demoDB 1 1500) 1 =
      some { id := 1, name := "Tee", price := 1500, sizes := ["M"] } :=
  ⟨(admin_price_edit_frame demoDB 1 1500).1,
   (admin_price_edit_frame demoDB 1 1500).2.2
     { id := 1, name := "Tee", price := 1000, sizes := ["M"] } (by decide)⟩

/-- C6. At the phone step, the input is normalized by dropping every
non-digit character; the step accepts iff the normalized input has exactly
10 or 11 digits, in which case the digits are stored in the draft's phone
field and the machine advances to delivery-method collection; otherwise the
handler re-prompts, the machine stays in `waiting_phone`, and the draft's
phone field is not mutated. -/
theorem on_phone_spec (s : Session) (input : String) (hs : s.fsm = FSMState.waiting_phone) :
    ((validate_phone input).1 = true ↔
      ((input.data.filter Char.isDigit).length = 10 ∨
       (input.data.filter Char.isDigit).length = 11)) ∧
    ((validate_phone input).1 = true →
      on_phone s input =
        { fsm := FSMState.waiting_delivery_type,
          draft := { s.draft with phone := some (String.mk (input.data.filter Char.isDigit)) } }) ∧
    ((validate_phone input).1 = false →
      on_phone s input = s ∧ (on_phone s input).fsm = FSMState.waiting_phone ∧
      (on_phone s input).draft.phone = s.draft.phone) := by
  have hlen : (String.mk (input.data.filter Char.isDigit)).length =
      (input.data.filter Char.isDigit).length := rfl
  by_cases hc : ((String.mk (input.data.filter Char.isDigit)).length == 10 ||
                 (String.mk (input.data.filter Char.isDigit)).length == 11) = true
  · have hv : validate_phone input = (true, String.mk (input.data.filter Char.isDigit)) := by
      simp only [validate_phone]
      rw [if_pos hc]
    have hlens : (input.data.filter Char.isDigit).length = 10 ∨
        (input.data.filter Char.isDigit).length = 11 := by
      rw [hlen] at hc
      simpa using hc
    refine ⟨iff_of_true (by rw [hv]) hlens, fun _ => ?_, fun hfalse => ?_⟩
    · simp [on_phone, hv]
    · rw [hv] at hfalse; simp at hfalse
  · have hv : validate_phone input =
        (false, "Неверный формат телефона. Пример: +7 999 123-45-67") := by
      simp only [validate_phone]
      rw [if_neg hc]
    have hlens : ¬((input.data.filter Char.isDigit).length = 10 ∨
        (input.data.filter Char.isDigit).length = 11) := by
      rw [hlen] at hc
      simpa using hc
    have hid : on_phone s input = s := by simp [on_phone, hv]
    refine ⟨iff_of_false (by rw [hv]; simp) hlens, fun htrue => ?_, fun _ => ?_⟩
    · rw [hv] at htrue; simp at htrue
    · exact ⟨hid, by rw [hid, hs], by rw [hid]⟩

/-- Witness for C6 at a concrete session: the invalid input "abc" leaves
the machine in `waiting_phone` with the draft untouched, and the valid
input "+7 999 123-45-67" stores "79991234567" and advances. -/
theorem on_phone_spec_witness :
    ((validate_phone "abc").1 = false →
      on_phone { fsm := FSMState.waiting_phone, draft := {} } "abc" =
          { fsm := FSMState.waiting_phone, draft := {} } ∧
      (on_phone { fsm := FSMState.waiting_phone, draft := {} } "abc").fsm =
          FSMState.waiting_phone ∧
      (on_phone { fsm := FSMState.waiting_phone, draft := {} } "abc").draft.phone =
          (Draft.mk none none none none none none).phone) ∧
    ((validate_phone "+7 999 123-45-67").1 = true →
      on_phone { fsm := FSMState.waiting_phone, draft := {} } "+7 999 123-45-67" =
        { fsm := FSMState.waiting_delivery_type,
          draft := { (Draft.mk none none none none none none) with
                     phone := some (String.mk ("+7 999 123-45-67".data.filter Char.isDigit)) } }) :=
  ⟨(on_phone_spec { fsm := FSMState.waiting_phone, draft := {} } "abc" rfl).2.2,
   (on_phone_spec { fsm := FSMState.waiting_phone, draft := {} } "+7 999 123-45-67" rfl).2.1⟩

/-- C8. Starting checkout with an empty cart fails: for an existing
user whose cart is empty and who has no session yet, the formatted cart
text is the "корзина пуста" message, the handler's substring guard fires,
the session is returned untouched and the FSM does not enter the
name-collection state.  The handler performs no store writes at all (its
result is only a session), so cart and order state are unaffected. -/
theorem on_checkout_empty_cart (db : DB) (tg : Nat) (u : User) (s : Session)
    (hu : db.users.find? (fun x => x.telegram_id == tg) = some u)
    (hempty : get_user_cart db u.id = [])
    (hidle : s.fsm = FSMState.idle) :
    on_checkout db tg s = s ∧ (on_checkout db tg s).fsm ≠ FSMState.waiting_fullname := by
  have hfc : format_cart db tg = "🛒 *Ваша корзина пуста*" := by
    simp [format_cart, hu, hempty]
  have hsub : hasSub "пуста".data ("🛒 *Ваша корзина пуста*" : String).data = true := by
    decide
  have hid : on_checkout db tg s = s := by
    simp [on_checkout, hfc, hsub]
  refine ⟨hid, ?_⟩
  rw [hid, hidle]
  decide

/-- Witness for C8: user 100 of `demoDB` has an empty cart, and `/checkout`
leaves their (absent) session untouched. -/
theorem on_checkout_empty_cart_witness :
    on_checkout demoDB 100 { fsm := FSMState.idle, draft := {} } =
      { fsm := FSMState.idle, draft := {} } ∧
    (on_checkout demoDB 100 { fsm := FSMState.idle, draft := {} }).fsm ≠
      FSMState.waiting_fullname :=
  on_checkout_empty_cart demoDB 100 { id := 1, telegram_id := 100 }
    { fsm := FSMState.idle, draft := {} } (by decide) (by decide) rfl

/-- C4, counterexample. The claim says `add_to_cart` fails with an
invalid-size error when the size is not one of the product's sizes (and
requires qty ≥ 1), writing nothing.  The code has no such validation:
product 1 of `demoDB` has sizes `["M"]` only, yet adding size "XXL" with
quantity 0 writes a cart row. -/
theorem add_to_cart_accepts_invalid_size :
    ("XXL" ∉ ({ id := 1, name := "Tee", price := 1000, sizes := ["M"] } : Product).sizes) ∧
    getProduct demoDB 1 = some { id := 1, name := "Tee", price := 1000, sizes := ["M"] } ∧
    (add_to_cart demoDB 1 1 "XXL" 0).cart_items =
      [{ user_id := 1, product_id := 1, size := "XXL", quantity := 0 }] := by
  decide

/-- C4, amended. `add_to_cart` performs no size or quantity
validation: even when the requested size is not one of the product's sizes
or the quantity is below 1, the row is still written (appended, when no row
matches the key).  Size and quantity discipline comes only from the inline
keyboards, whose buttons offer sizes drawn from `product.sizes` and
quantities 1-5. -/
theorem add_to_cart_unvalidated (db : DB) (uid pid : Nat) (size : String) (qty : Int)
    (p : Product) (hp : getProduct db pid = some p)
    (hbad : size ∉ p.sizes ∨ qty < 1)
    (hnone : db.cart_items.find? (cartKey uid pid size) = none) :
    (add_to_cart db uid pid size qty).cart_items =
      db.cart_items ++ [{ user_id := uid, product_id := pid, size := size, quantity := qty }] :=
  add_to_cart_eq_of_none qty hnone

/-- Witness for the amended C4: the invalid-size, zero-quantity request is
appended to the cart of `demoDB` anyway. -/
theorem add_to_cart_unvalidated_witness :
    (add_to_cart demoDB 1 1 "XXL" 0).cart_items =
      demoDB.cart_items ++ [{ user_id := 1, product_id := 1, size := "XXL", quantity := 0 }] :=
  add_to_cart_unvalidated demoDB 1 1 "XXL" 0
    { id := 1, name := "Tee", price := 1000, sizes := ["M"] }
    (by decide) (by decide) (by decide)

/-- A completed draft sitting at the `confirm` step. -/
def demoConfirmSession : Session :=
  { fsm := FSMState.confirm,
    draft := { fullname := some "Ivan Petrov", phone := some "79991234567",
               delivery_type := some "courier", address := some "Moscow street 1" } }

/-- C7, counterexample. The claim says a commit failure leaves the
session in `Confirming` with the draft preserved.  At a concrete store with
a non-empty cart and a completed draft, injecting a commit failure ends
with the session cleared: the FSM is not in `confirm` and the draft's name
is gone — the handler's final `state.clear()` runs unconditionally. -/
theorem confirm_failure_not_confirming :
    (confirm_order cartDemoDB { id := 1, telegram_id := 100 } demoConfirmSession true
        "ORD1").2.2 = ConfirmOutcome.createFailed ∧
    (confirm_order cartDemoDB { id := 1, telegram_id := 100 } demoConfirmSession true
        "ORD1").2.1.fsm ≠ FSMState.confirm ∧
    (confirm_order cartDemoDB { id := 1, telegram_id := 100 } demoConfirmSession true
        "ORD1").2.1.draft.fullname = none := by
  decide

/-- C7, amended. If order creation fails at commit (for a non-empty
cart), the handler reports the error and the failed transaction is not
committed — the store, hence the cart, is unchanged — but the session does
not stay in `Confirming`: the handler's unconditional `state.clear()`
discards the FSM state and the whole draft, so the user must restart
checkout and re-enter the data. -/
theorem confirm_order_failure_clears (db : DB) (u : User) (s : Session) (onum : String)
    (hne : get_user_cart db u.id ≠ []) :
    confirm_order db u s true onum = (db, Session.cleared, ConfirmOutcome.createFailed) := by
  have hemp : (get_user_cart db u.id).isEmpty = false := by
    cases hgc : get_user_cart db u.id with
    | nil => exact absurd hgc hne
    | cons a l => rfl
  cases hlv : load_cart_views db u.id with
  | none => simp [confirm_order, hemp, hlv]
  | some views => simp [confirm_order, hemp, hlv]

/-- Witness for the amended C7 at the concrete store of the counterexample:
store unchanged, session cleared, failure reported. -/
theorem confirm_order_failure_clears_witness :
    confirm_order cartDemoDB { id := 1, telegram_id := 100 } demoConfirmSession true "ORD1" =
      (cartDemoDB, Session.cleared, ConfirmOutcome.createFailed) :=
  confirm_order_failure_clears cartDemoDB { id := 1, telegram_id := 100 } demoConfirmSession
    "ORD1" (by decide)

/-- C9, counterexample. The claim requires at least two
space-separated tokens in the name.  `validate_fullname` has no token
count check: the single token "Ivan" is accepted and the machine advances
to the phone step with the name stored. -/
theorem fullname_one_token_accepted :
    validate_fullname "Ivan" = (true, "Ivan") ∧
    on_fullname { fsm := FSMState.waiting_fullname, draft := {} } "Ivan" =
      { fsm := FSMState.waiting_phone, draft := { fullname := some "Ivan" } } := by
  decide

/-- C9, amended. At the name step an input is accepted iff its
stripped form has between 2 and 100 characters, every one a Latin letter,
a Russian Cyrillic letter, whitespace, or a hyphen — there is no minimum
token count, and Unicode letters outside these ranges are rejected.  On
acceptance the stripped name is stored and the machine advances to the
phone step; on failure the handler re-prompts with an error reason and the
session (state and draft) is unchanged. -/
theorem on_fullname_spec (s : Session) (input : String)
    (hs : s.fsm = FSMState.waiting_fullname) :
    ((validate_fullname input).1 = true ↔
      (2 ≤ (pyStrip input).length ∧ (pyStrip input).length ≤ 100 ∧
       ∀ c ∈ (pyStrip input).data, fullnameChar c = true)) ∧
    ((validate_fullname input).1 = true →
      on_fullname s input =
        { fsm := FSMState.waiting_phone,
          draft := { s.draft with fullname := some (pyStrip input) } }) ∧
    ((validate_fullname input).1 = false →
      on_fullname s input = s ∧ (on_fullname s input).fsm = FSMState.waiting_fullname ∧
      (on_fullname s input).draft.fullname = s.draft.fullname) := by
  by_cases h1 : (pyStrip input).length < 2 ∨ 100 < (pyStrip input).length
  · have hv : validate_fullname input = (false, "ФИО должно быть от 2 до 100 символов") := by
      simp only [validate_fullname]
      rcases h1 with h | h <;> simp [h]
    have hrhs : ¬(2 ≤ (pyStrip input).length ∧ (pyStrip input).length ≤ 100 ∧
        ∀ c ∈ (pyStrip input).data, fullnameChar c = true) := by
      rcases h1 with h | h
      · exact fun hcon => absurd hcon.1 (by omega)
      · exact fun hcon => absurd hcon.2.1 (by omega)
    have hid : on_fullname s input = s := by simp [on_fullname, hv]
    refine ⟨iff_of_false (by rw [hv]; simp) hrhs, fun htrue => ?_,
            fun _ => ⟨hid, by rw [hid, hs], by rw [hid]⟩⟩
    rw [hv] at htrue; simp at htrue
  · by_cases h2 : (pyStrip input).data.all fullnameChar = true
    · have hn := h1
      push_neg at hn
      have hlt1 : ¬((pyStrip input).length < 2) := not_lt.mpr hn.1
      have hlt2 : ¬(100 < (pyStrip input).length) := not_lt.mpr hn.2
      have hv : validate_fullname input = (true, pyStrip input) := by
        simp only [validate_fullname]
        simp [hlt1, hlt2, h2]
      have hrhs : 2 ≤ (pyStrip input).length ∧ (pyStrip input).length ≤ 100 ∧
          ∀ c ∈ (pyStrip input).data, fullnameChar c = true := by
        push_neg at h1
        exact ⟨h1.1, h1.2, List.all_eq_true.mp h2⟩
      refine ⟨iff_of_true (by rw [hv]) hrhs, fun _ => by simp [on_fullname, hv],
              fun hfalse => ?_⟩
      rw [hv] at hfalse; simp at hfalse
    · have h2f : (pyStrip input).data.all fullnameChar = false :=
        Bool.eq_false_iff.mpr h2
      have hn := h1
      push_neg at hn
      have hlt1 : ¬((pyStrip input).length < 2) := not_lt.mpr hn.1
      have hlt2 : ¬(100 < (pyStrip input).length) := not_lt.mpr hn.2
      have hv : validate_fullname input =
          (false, "ФИО может содержать только буквы, пробелы и дефисы") := by
        simp only [validate_fullname]
        simp [hlt1, hlt2, h2f]
      have hrhs : ¬(2 ≤ (pyStrip input).length ∧ (pyStrip input).length ≤ 100 ∧
          ∀ c ∈ (pyStrip input).data, fullnameChar c = true) :=
        fun hcon => h2 (List.all_eq_true.mpr hcon.2.2)
      have hid : on_fullname s input = s := by simp [on_fullname, hv]
      exact ⟨iff_of_false (by rw [hv]; simp) hrhs,
             fun htrue => by rw [hv] at htrue; simp at htrue,
             fun _ => ⟨hid, by rw [hid, hs], by rw [hid]⟩⟩

/-- Witness for the amended C9: "  Ivan Petrov " is accepted, stripped and
stored, and the machine advances to the phone step. -/
theorem on_fullname_spec_witness :
    on_fullname { fsm := FSMState.waiting_fullname, draft := {} } "  Ivan Petrov " =
      { fsm := FSMState.waiting_phone,
        draft := { fullname := some (pyStrip "  Ivan Petrov ") } } :=
  (on_fullname_spec { fsm := FSMState.waiting_fullname, draft := {} } "  Ivan Petrov "
    rfl).2.1 (by decide)

end TgShop
